import Mathlib

/-
Verification development for gs-pypi (src/gs_pypi/pypi_db.py).

The file shallowly embeds the parts of pypi_db.py that the claims are
about: the worker retry loop (Worker.run), the detail-page parser
(PypiDBGenerator.parse_package_page), the per-entry record normalisation
of PypiDBGenerator.process_data, and load_remote_file.  Python values
that may be None are Option; Python exceptions are the PyError type and
fallible code returns Except PyError.
-/

namespace GsPypi

/-- Decidable equality for Except, used to evaluate the embedded
functions on concrete inputs inside proofs. -/
instance {ε α : Type} [DecidableEq ε] [DecidableEq α] : DecidableEq (Except ε α) := fun
  | .ok a, .ok b =>
      if h : a = b then .isTrue (by rw [h]) else .isFalse (by intro hc; cases hc; exact h rfl)
  | .error a, .error b =>
      if h : a = b then .isTrue (by rw [h]) else .isFalse (by intro hc; cases hc; exact h rfl)
  | .ok _, .error _ => .isFalse (by intro hc; cases hc)
  | .error _, .ok _ => .isFalse (by intro hc; cases hc)

/-- Python exceptions that the embedded code can raise.  DownloadingError
carries its message (g_sorcery.exceptions.DownloadingError); the others
are builtin Python exception kinds. -/
inductive PyError : Type where
  | indexError : PyError
  | typeError : PyError
  | keyError : PyError
  | attributeError : PyError
  | downloadingError (msg : String) : PyError
deriving DecidableEq

/-- Observable outcome of Worker.run's inner per-job loop (pypi_db.py
lines 128-144): how many attempts were made, how many times
task_queue.task_done() was called for the job, and the list of values put
on the result queue for the job. -/
structure JobResult (α : Type) : Type where
  attempts : Nat
  taskDone : Nat
  results : List α
deriving DecidableEq

/-- One round of the inner `while True` loop of Worker.run, lines 129-144.
`a` is the value of the Python `attempts` counter after the `attempts += 1`
of the current iteration (so `a = 1` on the first attempt).  `outcome a`
is what `load_remote_file(**uri)` does on attempt `a`.  Only
DownloadingError is caught (the `except DownloadingError` clause); any
other exception propagates out of the loop.  On a caught error the code
retries while `attempts < 100`, and at `attempts == 100` calls task_done
and breaks without putting a result; on success it calls task_done, puts
the data and breaks.  `fuel` is a structural-recursion bound; it is
always `100 - a` at every call reachable from `workerRunJob`, so the
`fuel = 0` fallback below is never hit (when `a < 100` then `fuel > 0`). -/
def runRetry {α : Type} (outcome : Nat → Except PyError α) : Nat → Nat → Except PyError (JobResult α)
  | a, fuel =>
    match outcome a with
    | .ok d => .ok ⟨a, 1, [d]⟩
    | .error (.downloadingError _) =>
        if a < 100 then
          match fuel with
          | 0 => .ok ⟨a, 0, []⟩
          | f + 1 => runRetry outcome (a + 1) f
        else .ok ⟨a, 1, []⟩
    | .error e => .error e

/-- Worker.run's handling of one non-sentinel job: the retry loop entered
with `attempts = 0`, i.e. the first attempt is attempt 1. -/
def workerRunJob {α : Type} (outcome : Nat → Except PyError α) : Except PyError (JobResult α) :=
  runRetry outcome 1 99

/-- Does `pre` occur at the start of `l`?  Used to model Python's
substring and separator matching on strings. -/
def startsWith : List Char → List Char → Bool
  | [], _ => true
  | _ :: _, [] => false
  | a :: as, b :: bs => a = b && startsWith as bs

/-- Does `needle` occur contiguously anywhere in `hay`?  Models Python's
`needle in hay` test on strings. -/
def containsSeq (needle : List Char) : List Char → Bool
  | [] => startsWith needle []
  | c :: rest => startsWith needle (c :: rest) || containsSeq needle rest

/-- Python substring test `needle in hay` on strings. -/
def pyIn (needle hay : String) : Bool := containsSeq needle.data hay.data

/-- Split a character list on the separator `s0 :: srest`, left to right,
non-overlapping — the semantics of Python's `str.split(sep)` for a
non-empty separator.  `fuel` is a structural bound; every call from
`pySplit` passes the length of the list, which suffices, so the `0`
fallback is never hit. -/
def splitSeqFuel (s0 : Char) (srest : List Char) : Nat → List Char → List (List Char)
  | _, [] => [[]]
  | 0, l => [l]
  | fuel + 1, c :: rest =>
    if c = s0 && startsWith srest rest then
      [] :: splitSeqFuel s0 srest fuel (rest.drop srest.length)
    else
      match splitSeqFuel s0 srest fuel rest with
      | [] => [[c]]
      | g :: gs => (c :: g) :: gs

/-- Python's `s.split(sep)` for a non-empty separator (an empty separator
raises ValueError in Python and does not occur in pypi_db.py; it is
mapped to the identity split here). -/
def pySplit (s sep : String) : List String :=
  match sep.data with
  | [] => [s]
  | c :: cs => (splitSeqFuel c cs s.data.length s.data).map (fun l => String.mk l)

/-- Python character-level slice `s[n:]`. -/
def pyDropChars (s : String) (n : Nat) : String := String.mk (s.data.drop n)

/-- Association list with string keys: the embedding of a Python dict.
Only key-to-value lookup and in-place assignment are used, so insertion
order is preserved the way CPython preserves it; equality of two values
of this type is used only where the dicts were built by the same
insertion discipline. -/
abbrev StrMap (α : Type) : Type := List (String × α)

/-- Python `d[key]` as an Option (None when the key is absent). -/
def alookup {α : Type} : StrMap α → String → Option α
  | [], _ => none
  | (k, v) :: rest, key => if k = key then some v else alookup rest key

/-- Python `d[key] = v`: replace in place when the key exists, else
append at the end. -/
def ainsert {α : Type} : StrMap α → String → α → StrMap α
  | [], key, v => [(key, v)]
  | (k, w) :: rest, key, v =>
      if k = key then (k, v) :: rest else (k, w) :: ainsert rest key v

/-- An `<a>` element as the parser uses it: its `href` attribute (absent
attribute access `a["href"]` raises KeyError) and its `.string` (None
when the element has no single string child). -/
structure Anchor : Type where
  href : Option String
  text : Option String
deriving DecidableEq

/-- A `<td>` cell: its `<a>` descendants and its `.string`. -/
structure Cell : Type where
  anchors : List Anchor
  text : Option String
deriving DecidableEq

/-- A `<tr>` row: its `<td>` cells. -/
structure Row : Type where
  tds : List Cell
deriving DecidableEq

/-- A `<table class="list">` as queried by parse_package_page: the
`.string` of each `<th>` and the list of `<tr>` rows. -/
structure Table : Type where
  ths : List (Option String)
  trs : List Row
deriving DecidableEq

/-- One child of the selected `<ul>` (an element of `ul.contents`):
whether it is an `<li>` element (non-elements and other tags are
skipped), and the query results the code uses on it: `entry("strong")`
strings, `entry("a")` anchors, `entry("span")` strings. -/
structure InfoEntry : Type where
  isLi : Bool
  strongs : List (Option String)
  anchors : List Anchor
  spans : List (Option String)
deriving DecidableEq

/-- A `<ul class="nodot">`: the `.string` of each `<strong>` descendant
(the query `ul("strong")`) and its children. -/
structure Ul : Type where
  strongs : List (Option String)
  entries : List InfoEntry
deriving DecidableEq

/-- A detail page as parse_package_page queries it: the results of
`soup("table", class_="list")` and `soup("ul", class_="nodot")`. -/
structure Page : Type where
  listTables : List Table
  nodotUls : List Ul
deriving DecidableEq

/-- A value stored in the parsed `data["info"]` dict: every label other
than "Categories" stores the Python value of `.string` (possibly None)
or an href string; the label "Categories" stores a dict from category
group to the ordered list of its values. -/
inductive InfoVal : Type where
  | str (v : Option String) : InfoVal
  | cats (m : StrMap (List String)) : InfoVal
deriving DecidableEq

/-- One row of the parsed file table, pypi_db.py lines 332-337. -/
structure FileRecord : Type where
  url : String
  md5 : String
  ftype : Option String
  pyversion : Option String
  uploaded : Option String
  size : Option String
deriving DecidableEq

/-- The result of parse_package_page: the `files` list and the `info`
dict. -/
structure PackageDetail : Type where
  files : List FileRecord
  info : StrMap InfoVal
deriving DecidableEq

/-- The empty PackageDetail that parse_package_page initialises (lines
303-305) and re-installs on any exception (lines 378-380). -/
def emptyDetail : PackageDetail := ⟨[], []⟩

/-- Python `l[i]` on a list: IndexError when out of range. -/
def pyGet {α : Type} (l : List α) (i : Nat) : Except PyError α :=
  match l.get? i with
  | some x => .ok x
  | none => .error .indexError

/-- Lines 311-337: extract one FileRecord from a row of the file table.
`file_inf = fields[0]("a")[0]["href"].split("#")`, url is component 0,
md5 is component 1 from character 4 on (IndexError when the href has no
"#" fragment), and the type/pyversion/uploaded/size fields are the
`.string` of cells 1-4. -/
def parseRow (r : Row) : Except PyError FileRecord := do
  let c0 ← pyGet r.tds 0
  let a0 ← pyGet c0.anchors 0
  let href ← match a0.href with
    | some h => pure h
    | none => throw .keyError
  let parts := pySplit href "#"
  let fileUrl ← pyGet parts 0
  let frag ← pyGet parts 1
  let c1 ← pyGet r.tds 1
  let c2 ← pyGet r.tds 2
  let c3 ← pyGet r.tds 3
  let c4 ← pyGet r.tds 4
  pure ⟨fileUrl, pyDropChars frag 4, c1.text, c2.text, c3.text, c4.text⟩

/-- Lines 307-339: `for table in soup("table", class_="list")[-1:]` —
only the last table is visited; a table whose first `<th>` string does
not contain "File" is skipped (`continue`); a missing `<th>` raises
IndexError and a None `.string` makes `"File" in None` raise TypeError;
the rows visited are `table("tr")[1:-1]`. -/
def parseTables (tables : List Table) : Except PyError (List FileRecord) :=
  (tables.drop (tables.length - 1)).foldlM (fun acc t => do
    let th0 ← pyGet t.ths 0
    let s ← match th0 with
      | some s => pure s
      | none => throw .typeError
    if containsSeq "File".data s.data then
      ((t.trs.drop 1).dropLast).foldlM (fun acc2 r => do
        let fr ← parseRow r
        pure (acc2 ++ [fr])) acc
    else pure acc) []

/-- Lines 357-362 inner step: one `cat_entry` anchor of a "Categories"
entry.  `cat_data = cat_entry.string.split(" :: ")` (AttributeError when
`.string` is None); the head of the split is the group, the tail its
values; a new group is assigned, an existing group is extended. -/
def addCatAnchor (m : StrMap (List String)) (a : Anchor) : Except PyError (StrMap (List String)) := do
  let s ← match a.text with
    | some s => pure s
    | none => throw .attributeError
  let catData := pySplit s " :: "
  let grp ← pyGet catData 0
  match alookup m grp with
  | none => pure (ainsert m grp (catData.drop 1))
  | some cur => pure (ainsert m grp (cur ++ catData.drop 1))

/-- Lines 348-372: one child of the selected `<ul>`.  Non-`<li>` children
are skipped; `entry_name = entry("strong")[0].string` (IndexError when
there is no `<strong>`); a falsy entry_name (None or "") is skipped; a
"Categories" entry resets `data["info"]["Categories"]` to a fresh dict
and then folds its anchors into it (the reset-then-mutate of the source
is modelled as inserting the folded dict, observably equal because any
exception discards the whole page); otherwise the first `<span>` string,
else the first `<a>` href (KeyError when the attribute is absent), else
nothing is stored. -/
def processInfoEntry (info : StrMap InfoVal) (e : InfoEntry) : Except PyError (StrMap InfoVal) := do
  if e.isLi then
    let en ← pyGet e.strongs 0
    match en with
    | none => pure info
    | some name =>
      if name = "" then pure info
      else if name = "Categories" then do
        let m ← e.anchors.foldlM addCatAnchor ([] : StrMap (List String))
        pure (ainsert info name (.cats m))
      else
        match e.spans with
        | sp :: _ => pure (ainsert info name (.str sp))
        | [] =>
          match e.anchors with
          | a :: _ =>
            match a.href with
            | some h => pure (ainsert info name (.str (some h)))
            | none => throw .keyError
          | [] => pure info
  else pure info

/-- Lines 341-346: choose the `<ul class="nodot">` to walk.  When there
is no such list nothing is walked; otherwise the first `<strong>` string
of the first list decides (IndexError when the first list has no strong,
TypeError when its string is None): if it contains
"Downloads (All Versions):" the second list is taken (IndexError when
absent), else the first. -/
def selectUl (uls : List Ul) : Except PyError (Option Ul) := do
  match uls with
  | [] => pure none
  | u0 :: rest =>
    let s0 ← pyGet u0.strongs 0
    let t ← match s0 with
      | some t => pure t
      | none => throw .typeError
    if containsSeq "Downloads (All Versions):".data t.data then
      match rest with
      | u1 :: _ => pure (some u1)
      | [] => throw .indexError
    else pure (some u0)

/-- Lines 341-373: walk the selected `<ul>` and build `data["info"]`. -/
def parseUls (uls : List Ul) : Except PyError (StrMap InfoVal) := do
  match ← selectUl uls with
  | none => pure []
  | some ul => ul.entries.foldlM processInfoEntry []

/-- The body of the `try` block of parse_package_page, lines 306-373:
build the files list from the tables, then the info dict from the lists;
the first raised exception aborts the whole walk. -/
def parsePageWalk (p : Page) : Except PyError PackageDetail := do
  let files ← parseTables p.listTables
  let info ← parseUls p.nodotUls
  pure ⟨files, info⟩

/-- PypiDBGenerator.parse_package_page, lines 297-383: run the walk and,
on any exception, discard all partial results and return the empty
PackageDetail (the `except Exception` handler, lines 375-380).  The
function itself is total: no exception escapes it. -/
def parse_package_page (p : Page) : PackageDetail :=
  match parsePageWalk p with
  | .ok d => d
  | .error _ => emptyDetail

/-- The release-type string a file row must equal exactly to count as the
source artifact (line 426). -/
def sourceMarker : String := "\n    Source\n  "

/-- Lines 422-429: scan the files in order and take the url and md5 of
the first entry whose type is exactly the source marker; both stay ""
when there is none.  (A None type never equals the marker.) -/
def first_source_file : List FileRecord → String × String
  | [] => ("", "")
  | f :: rest =>
      if f.ftype = some sourceMarker then (f.url, f.md5) else first_source_file rest

/-- Python truthiness of a value stored in the info dict: None and ""
and the empty dict are falsy. -/
def truthyVal : InfoVal → Bool
  | .str none => false
  | .str (some s) => decide (s ≠ "")
  | .cats m => decide (m ≠ [])

/-- Lines 431-435: `download_url = ""`, overwritten by
`info["Download URL:"]` when info is non-empty and has that key. -/
def download_url_of (info : StrMap InfoVal) : InfoVal :=
  if info = [] then .str (some "")
  else
    match alookup info "Download URL:" with
    | some v => v
    | none => .str (some "")

/-- Lines 437-440: `source_uri` is the download url when truthy, else
the url of the first source-type file.  The entry is skipped when the
result is falsy (line 442). -/
def select_source_uri (d : PackageDetail) : InfoVal :=
  let dl := download_url_of d.info
  if truthyVal dl then dl else .str (some (first_source_file d.files).1)

/-- Lines 449-450: `homepage = ""`, overwritten by `info["Home Page:"]`
when info is non-empty and has that key. -/
def homepage_of (info : StrMap InfoVal) : InfoVal :=
  if info = [] then .str (some "")
  else
    match alookup info "Home Page:" with
    | some v => v
    | none => .str (some "")

/-- Lines 451-453: `categories = {}`, overwritten by `info["Categories"]`
when info is non-empty and has that key.  (When info is empty the whole
block is skipped and categories stays the empty dict, which yields the
same downstream values, so the helper is defined on the lookup alone.) -/
def categories_of (info : StrMap InfoVal) : InfoVal :=
  match alookup info "Categories" with
  | some v => v
  | none => .cats []

/-- Lines 457-472: the fixed mapping from one "Programming Language"
category entry to runtime tags (`py_versions.extend(...)`); an entry
outside the table contributes nothing. -/
def pyVerMap (entry : String) : List String :=
  if entry = "2" then ["2_7"]
  else if entry = "3" then ["3_3", "3_4", "3_5"]
  else if entry = "2.6" then ["2_7"]
  else if entry = "2.7" then ["2_7"]
  else if entry = "3.2" then ["3_3"]
  else if entry = "3.3" then ["3_3"]
  else if entry = "3.4" then ["3_4"]
  else if entry = "3.5" then ["3_5"]
  else []

/-- Lines 455-472: `py_versions` accumulated over the
"Programming Language" category entries in order.  When the stored
categories value is a string instead of a dict, Python's `in` becomes a
substring test and a hit then indexes the string with a string key,
raising TypeError; `in` on None raises TypeError. -/
def py_versions_of (categories : InfoVal) : Except PyError (List String) :=
  match categories with
  | .cats m =>
      match alookup m "Programming Language" with
      | some entries => .ok (entries.foldl (fun acc e => acc ++ pyVerMap e) [])
      | none => .ok []
  | .str none => .error .typeError
  | .str (some s) =>
      if containsSeq "Programming Language".data s.data then .error .typeError else .ok []

/-- Lines 446 and 475-476: `pkg_license = ""`, overwritten by
`categories["License"][-1]`; indexing `[-1]` on an empty list raises
IndexError.  The string/None cases mirror py_versions_of. -/
def license_raw_of (categories : InfoVal) : Except PyError String :=
  match categories with
  | .cats m =>
      match alookup m "License" with
      | some vals =>
          match vals.getLast? with
          | some v => .ok v
          | none => .error .indexError
      | none => .ok ""
  | .str none => .error .typeError
  | .str (some s) =>
      if containsSeq "License".data s.data then .error .typeError else .ok ""

/-- Lines 479-480: the default tag set installed when no tag was
inferred. -/
def default_py_versions : List String := ["2_7", "3_3", "3_4", "3_5"]

/-- Lines 482-488: render the runtime-compatibility expression.  One tag
renders as "( python" + tag + " )"; several render as
"( python\x7b" + tag1 + "," + ... + "\x7d )"; on an empty list
`py_versions[0]` raises IndexError (unreachable after the default). -/
def python_compat : List String → Except PyError String
  | [] => .error .indexError
  | [v] => .ok ("( python" ++ v ++ " )")
  | v :: rest =>
      .ok (rest.foldl (fun acc x => acc ++ "," ++ x) ("( python\x7b" ++ v) ++ "\x7d )")

/-- Line 400-402: the character set allowed in a package name. -/
def allowed_pkg_char (c : Char) : Bool :=
  (decide ('a' ≤ c) && decide (c ≤ 'z')) || (decide ('A' ≤ c) && decide (c ≤ 'Z')) ||
  (decide ('0' ≤ c) && decide (c ≤ '9')) || c = '+' || c = '_' || c = '-'

/-- Lines 404-406: the character set allowed in a description. -/
def allowed_desc_char (c : Char) : Bool :=
  allowed_pkg_char c || c = ' ' || c = '.' || c = '(' || c = ')' || c = '[' || c = ']' ||
  c = Char.ofNat 123 || c = Char.ofNat 125 || c = ','

/-- Lines 490-491: keep only the allowed characters of a string. -/
def filter_chars (allowed : Char → Bool) (s : String) : String :=
  String.mk (s.data.filter allowed)

/-- A character in the class `[0-9]` of the version regex. -/
def isDigitC (c : Char) : Bool := decide ('0' ≤ c) && decide (c ≤ '9')

/-- A character in the class `[a-z]` of the version regex. -/
def isLowerC (c : Char) : Bool := decide ('a' ≤ c) && decide (c ≤ 'z')

/-- A character in the class `[0-9.]` of the version regex. -/
def isDigitDot (c : Char) : Bool := isDigitC c || c = '.'

/-- Drop a final `[a-z]` character when present: since `[a-z]` is
disjoint from `[0-9]` and `[0-9.]`, a trailing lowercase letter can only
be matched by the optional `[a-z]?` of either alternative. -/
def stripTrailingLower (cs : List Char) : List Char :=
  match cs.getLast? with
  | some c => if isLowerC c then cs.dropLast else cs
  | none => cs

/-- The first regex alternative `^[0-9]+[a-z]?$` (line 493). -/
def matchAlt1 (cs : List Char) : Bool :=
  let t := stripTrailingLower cs
  decide (t ≠ []) && t.all isDigitC

/-- The second regex alternative `^[0-9][0-9.]+[0-9][a-z]?$` (line 493):
after stripping the optional letter, at least three characters, first
and last a digit, everything in between a digit or a dot. -/
def matchAlt2 (cs : List Char) : Bool :=
  let t := stripTrailingLower cs
  match t with
  | [] => false
  | c :: rest =>
      isDigitC c && decide (2 ≤ rest.length) && rest.dropLast.all isDigitDot &&
        (match rest.getLast? with
         | some d => isDigitC d
         | none => false)

/-- Lines 493-494: `re.match` of the version grammar
`(^[0-9]+[a-z]?$)|(^[0-9][0-9.]+[0-9][a-z]?$)`. -/
def version_matches (v : String) : Bool := matchAlt1 v.data || matchAlt2 v.data

/-- Lines 408-409: `"%04d%02d%02d" % (now.year, now.month, now.day)` —
zero-pad a number to a minimum width. -/
def pad0 (w n : Nat) : String :=
  let s := toString n
  String.mk (List.replicate (w - s.data.length) '0') ++ s

/-- The pseudo-version YYYYMMDD built from the run date (lines 408-409). -/
def pseudoversion_of (y m d : Nat) : String := pad0 4 y ++ pad0 2 m ++ pad0 2 d

/-- The ebuild_data record built at lines 498-509 together with the
Package identity of line 511 (category "dev-python", filtered name,
filtered-or-pseudo version). -/
structure EbuildData : Type where
  realname : String
  realversion : String
  description : String
  longdescription : String
  homepage : InfoVal
  license : String
  source_uri : InfoVal
  md5 : String
  python_compat : String
  category : String
  pkgName : String
  pkgVersion : String
deriving DecidableEq

/-- Lines 411-511, the per-entry body of the loop of process_data from
the point where `pkg_data` is in hand (line 417): `convert` is the
license-normalisation collaborator `self.convert([common_config, config],
"licenses", ...)` and `pseudoversion` the precomputed date string.  The
result pairs the Python control flow (skip via `continue` = ok none,
an uncaught exception = error, an emitted record = ok some) with the
list of arguments passed to `convert`, in call order. -/
def processEntry (convert : String → String) (pseudoversion : String)
    (package version description : String) (pkg_data : PackageDetail) :
    Except PyError (Option EbuildData) × List String :=
  -- line 419: if not pkg_data["files"] and not pkg_data["info"]: continue
  if pkg_data.files = [] ∧ pkg_data.info = [] then (.ok none, [])
  else
    -- lines 422-443
    let source_uri := select_source_uri pkg_data
    if truthyVal source_uri = true then
      -- lines 445-476
      let homepage := homepage_of pkg_data.info
      let categories := categories_of pkg_data.info
      match py_versions_of categories with
      | .error e => (.error e, [])
      | .ok pyv =>
        match license_raw_of categories with
        | .error e => (.error e, [])
        | .ok rawLicense =>
          -- line 477: the single call to the license lookup
          let pkgLicense := convert rawLicense
          -- lines 479-488
          let pyv2 := if pyv = [] then default_py_versions else pyv
          match python_compat pyv2 with
          | .error e => (.error e, [rawLicense])
          | .ok compat =>
            -- lines 490-511
            let fdesc := filter_chars allowed_desc_char description
            (.ok (some
              { realname := package
                realversion := version
                description := fdesc
                longdescription := fdesc
                homepage := homepage
                license := pkgLicense
                source_uri := source_uri
                md5 := (first_source_file pkg_data.files).2
                python_compat := compat
                category := "dev-python"
                pkgName := filter_chars allowed_pkg_char package
                pkgVersion := if version_matches version then version else pseudoversion }),
              [rawLicense])
    else (.ok none, [])

/-- A payload as load_remote_file (lines 70-111) sees it after the
download: either the downloaded file is a tar container
(`tarfile.is_tarfile`), carrying its member files as (name, content)
pairs, or it is a plain file with its name and content. -/
inductive Payload : Type where
  | tarArchive (members : List (String × String)) : Payload
  | plainFile (fname : String) (content : String) : Payload
deriving DecidableEq

/-- Python `os.path.basename` for the slash-free temporary-file names the
code manipulates (the component after the last "/"). -/
def basenameOf (s : String) : String :=
  match (pySplit s "/").getLast? with
  | some b => b
  | none => s

/-- Python `os.path.splitext`: split off the extension at the last dot,
except when every character before that dot is itself a dot (then there
is no extension). -/
def pySplitext (s : String) : String × String :=
  let rev := s.data.reverse
  let extRev := rev.takeWhile (fun c => c ≠ '.')
  if extRev.length = rev.length then (s, "")
  else
    let stemRev := rev.drop (extRev.length + 1)
    if stemRev.all (fun c => c = '.') then (s, "")
    else (String.mk stemRev.reverse, String.mk ('.' :: extRev.reverse))

/-- load_remote_file, lines 92-111, after a successful download.
`parser` is the page parser `_call_parser` applies, `xzOk` whether
`os.system("xz -d " + f_name)` exits 0, `decompress` the content
transformation xz performs.  For a tar payload the code runs
`f.extractall(unpack_dir.name)` and then calls
`glob.glob(os.path.join(unpack_dir, "*"))` on the TemporaryDirectory
object itself rather than `unpack_dir.name` (line 97); `posixpath.join`
then invokes `.endswith` on that object, which raises AttributeError, so
no member is ever parsed or returned.  For a plain file, a ".xz" or
".lzma" extension is decompressed first (a failing xz raises
DownloadingError) and the parsed content is returned under the file's
basename. -/
def load_remote_file {α : Type} (parser : String → α) (xzOk : Bool)
    (decompress : String → String) (p : Payload) : Except PyError (List (String × α)) :=
  match p with
  | .tarArchive _members => .error .attributeError
  | .plainFile fname content =>
      let ne := pySplitext fname
      if ne.2 = ".xz" ∨ ne.2 = ".lzma" then
        if xzOk then .ok [(basenameOf ne.1, parser (decompress content))]
        else .error (.downloadingError ("xz failed: " ++ fname))
      else .ok [(basenameOf fname, parser content)]

/-- A well-formed file-table row used as concrete input: one anchor with
an md5 fragment and four string cells. -/
def goodRow : Row :=
  ⟨[⟨[⟨some "http://x/y.tar.gz#md5=abcdef", none⟩], none⟩,
    ⟨[], some "t"⟩, ⟨[], some "v"⟩, ⟨[], some "u"⟩, ⟨[], some "s"⟩]⟩

/-- The FileRecord goodRow parses to. -/
def goodRowRecord : FileRecord := ⟨"http://x/y.tar.gz", "abcdef", some "t", some "v", some "u", some "s"⟩

/-- A file table with a header row, goodRow and a trailing summary row. -/
def goodTable : Table := ⟨[some "File kind"], [⟨[]⟩, goodRow, ⟨[]⟩]⟩

/-- A page whose file table parses to one record but whose single
`<ul class="nodot">` has no `<strong>` at all, so the info walk raises
IndexError at `uls[0]("strong")[0]`. -/
def badUlPage : Page := ⟨[goodTable], [⟨[], []⟩]⟩

/-- An `<li>` labelled "Categories" whose anchors carry the given
category strings. -/
def catEntry (ss : List String) : InfoEntry :=
  ⟨true, [some "Categories"], ss.map (fun s => ⟨none, some s⟩), []⟩

/-- A page with two separate "Categories" entries on the selected list:
the first carries "License :: GPL-2", the second "License :: MIT". -/
def twoCatPage : Page :=
  ⟨[], [⟨[some "Author:"], [catEntry ["License :: GPL-2"], catEntry ["License :: MIT"]]⟩]⟩

/-- A page with one "Categories" entry carrying both license anchors. -/
def oneCatPage : Page :=
  ⟨[], [⟨[some "Author:"], [catEntry ["License :: GPL-2", "License :: MIT"]]⟩]⟩

/-- A source-type file entry used as concrete process_data input. -/
def srcFile : FileRecord := ⟨"http://h/p-1.0.tar.gz", "abc", some sourceMarker, none, none, none⟩

/-- A PackageDetail with one source file and empty info. -/
def d0 : PackageDetail := ⟨[srcFile], []⟩

/-- The record process_data emits for d0 under the identity license
lookup, package "foo", version "1.0", empty description and
pseudo-version "p". -/
def d0rec : EbuildData :=
  { realname := "foo", realversion := "1.0", description := "", longdescription := "",
    homepage := .str (some ""), license := "", source_uri := .str (some "http://h/p-1.0.tar.gz"),
    md5 := "abc", python_compat := "( python\x7b2_7,3_3,3_4,3_5\x7d )", category := "dev-python",
    pkgName := "foo", pkgVersion := "1.0" }

/-- The record process_data emits for d0 at version "1.0-beta" with
pseudo-version 2015-07-09. -/
def d0recBeta : EbuildData :=
  { realname := "foo", realversion := "1.0-beta", description := "", longdescription := "",
    homepage := .str (some ""), license := "", source_uri := .str (some "http://h/p-1.0.tar.gz"),
    md5 := "abc", python_compat := "( python\x7b2_7,3_3,3_4,3_5\x7d )", category := "dev-python",
    pkgName := "foo", pkgVersion := "20150709" }

/-- A PackageDetail whose info carries a truthy "Download URL:" besides a
source file. -/
def dDl : PackageDetail := ⟨[srcFile], [("Download URL:", .str (some "http://d"))]⟩

/-- A PackageDetail whose Programming Language categories are
["2", "3.4"]. -/
def dC5 : PackageDetail :=
  ⟨[srcFile], [("Categories", .cats [("Programming Language", ["2", "3.4"])])]⟩

/-- The record emitted for dC5. -/
def dC5rec : EbuildData :=
  { realname := "foo", realversion := "1.0", description := "", longdescription := "",
    homepage := .str (some ""), license := "", source_uri := .str (some "http://h/p-1.0.tar.gz"),
    md5 := "abc", python_compat := "( python\x7b2_7,3_4\x7d )", category := "dev-python",
    pkgName := "foo", pkgVersion := "1.0" }

/-- A PackageDetail whose Programming Language categories are
["2", "2.7"], which both map to the tag "2_7". -/
def dC9 : PackageDetail :=
  ⟨[srcFile], [("Categories", .cats [("Programming Language", ["2", "2.7"])])]⟩

/-- The record emitted for dC9: the duplicated tag appears twice. -/
def dC9rec : EbuildData :=
  { realname := "foo", realversion := "1.0", description := "", longdescription := "",
    homepage := .str (some ""), license := "", source_uri := .str (some "http://h/p-1.0.tar.gz"),
    md5 := "abc", python_compat := "( python\x7b2_7,2_7\x7d )", category := "dev-python",
    pkgName := "foo", pkgVersion := "1.0" }

/-- A PackageDetail that reaches the license step with a License category
whose value list is empty. -/
def dLic : PackageDetail := ⟨[srcFile], [("Categories", .cats [("License", [])])]⟩

end GsPypi

namespace GsPypi

theorem runRetry_all_fail {α : Type} (outcome : Nat → Except PyError α)
    (h : ∀ n, 1 ≤ n → n ≤ 100 → ∃ m, outcome n = .error (.downloadingError m)) :
    ∀ fuel a, 1 ≤ a → a + fuel = 100 → runRetry outcome a fuel = .ok ⟨100, 1, []⟩ := by
  intro fuel
  induction fuel with
  | zero =>
    intro a h1 h2
    have ha : a = 100 := by omega
    subst ha
    obtain ⟨m, hm⟩ := h 100 (by omega) (by omega)
    simp [runRetry, hm]
  | succ f ih =>
    intro a h1 h2
    obtain ⟨m, hm⟩ := h a h1 (by omega)
    have ha : a < 100 := by omega
    rw [runRetry]
    simp only [hm, ha, if_true]
    exact ih (a + 1) (by omega) (by omega)

theorem runRetry_succeeds {α : Type} (outcome : Nat → Except PyError α) (k : Nat) (d : α)
    (hk2 : k ≤ 100)
    (hfail : ∀ n, 1 ≤ n → n < k → ∃ m, outcome n = .error (.downloadingError m))
    (hok : outcome k = .ok d) :
    ∀ fuel a, 1 ≤ a → a ≤ k → a + fuel = 100 → runRetry outcome a fuel = .ok ⟨k, 1, [d]⟩ := by
  intro fuel
  induction fuel with
  | zero =>
    intro a h1 h2 h3
    have ha : a = 100 := by omega
    have hak : a = k := by omega
    subst hak
    rw [runRetry]
    simp [hok]
  | succ f ih =>
    intro a h1 h2 h3
    by_cases hak : a = k
    · subst hak
      rw [runRetry]
      simp [hok]
    · have halt : a < k := by omega
      obtain ⟨m, hm⟩ := hfail a h1 halt
      have ha : a < 100 := by omega
      rw [runRetry]
      simp only [hm, ha, if_true]
      exact ih (a + 1) (by omega) (by omega) (by omega)

/-- Claim C1: for a fetch job whose download raises DownloadingError on
every attempt, Worker.run retries the job in place until exactly 100
attempts have been made, then calls task_done exactly once and puts
nothing on the result queue; a job that first succeeds on attempt k with
k at most 100 makes exactly k attempts, calls task_done exactly once and
puts exactly its parsed data on the result queue. -/
theorem c1_worker_retry {α : Type} (outcome : Nat → Except PyError α) :
    ((∀ n, 1 ≤ n → n ≤ 100 → ∃ m, outcome n = .error (.downloadingError m)) →
      workerRunJob outcome = .ok ⟨100, 1, []⟩) ∧
    (∀ k d, 1 ≤ k → k ≤ 100 →
      (∀ n, 1 ≤ n → n < k → ∃ m, outcome n = .error (.downloadingError m)) →
      outcome k = .ok d →
      workerRunJob outcome = .ok ⟨k, 1, [d]⟩) := by
  constructor
  · intro h
    exact runRetry_all_fail outcome h 99 1 (by omega) (by omega)
  · intro k d hk1 hk2 hfail hok
    exact runRetry_succeeds outcome k d hk2 hfail hok 99 1 (by omega) hk1 (by omega)

/-- Witness for C1 at concrete outcomes: an always-failing download makes
100 attempts, one task_done, no result; a download succeeding on attempt 3
makes 3 attempts, one task_done, one result. -/
theorem c1_worker_retry_witness :
    workerRunJob (fun _ : Nat => (.error (.downloadingError "e") : Except PyError Nat)) =
      .ok ⟨100, 1, []⟩ ∧
    workerRunJob (fun n : Nat => if 3 ≤ n then (.ok 7 : Except PyError Nat)
      else .error (.downloadingError "e")) = .ok ⟨3, 1, [7]⟩ := by
  constructor
  · exact (c1_worker_retry _).1 (fun n _ _ => ⟨"e", rfl⟩)
  · exact (c1_worker_retry _).2 3 7 (by omega) (by omega)
      (fun n h1 h2 => ⟨"e", by rw [if_neg (by omega)]⟩) (by rw [if_pos (by omega)])

/-- Claim C2: parse_package_page is total — it always returns a
PackageDetail (by its type, no exception escapes), and whenever the walk
of the file table or the info list raises any exception, all partial
results of that page are discarded and the empty PackageDetail is
returned. -/
theorem c2_parse_detail_total (p : Page) (e : PyError)
    (h : parsePageWalk p = .error e) : parse_package_page p = emptyDetail := by
  unfold parse_package_page
  rw [h]

/-- Witness for C2 at a concrete malformed page: the file table of
badUlPage parses to one record, but the info walk raises IndexError, so
the whole page collapses to the empty PackageDetail — the partial file
list is discarded. -/
theorem c2_parse_detail_total_witness :
    parseTables badUlPage.listTables = .ok [goodRowRecord] ∧
    parsePageWalk badUlPage = .error .indexError ∧
    parse_package_page badUlPage = emptyDetail := by
  refine ⟨by decide, by decide, c2_parse_detail_total badUlPage .indexError (by decide)⟩

theorem python_compat_of_ne_nil (l : List String) (h : l ≠ []) :
    ∃ s, python_compat l = .ok s := by
  match l with
  | [] => exact absurd rfl h
  | [v] => exact ⟨_, rfl⟩
  | v :: w :: rest => exact ⟨_, rfl⟩

theorem first_source_file_eq_first (pre : List FileRecord) (f : FileRecord)
    (post : List FileRecord) (hpre : ∀ g ∈ pre, g.ftype ≠ some sourceMarker)
    (hf : f.ftype = some sourceMarker) :
    first_source_file (pre ++ f :: post) = (f.url, f.md5) := by
  induction pre with
  | nil => simp [first_source_file, hf]
  | cons g gs ih =>
    have hg := hpre g (by simp)
    simp only [List.cons_append, first_source_file]
    rw [if_neg hg]
    exact ih (fun x hx => hpre x (by simp [hx]))

theorem first_source_file_of_none (l : List FileRecord)
    (h : ∀ f ∈ l, f.ftype ≠ some sourceMarker) :
    first_source_file l = ("", "") := by
  induction l with
  | nil => rfl
  | cons f rest ih =>
    simp only [first_source_file]
    rw [if_neg (h f (by simp))]
    exact ih (fun x hx => h x (by simp [hx]))

theorem processEntry_skips_no_uri (convert : String → String)
    (pseudov pkg ver desc : String) (d : PackageDetail)
    (h2 : truthyVal (select_source_uri d) = false) :
    processEntry convert pseudov pkg ver desc d = (.ok none, []) := by
  by_cases h1 : d.files = [] ∧ d.info = []
  · simp only [processEntry, if_pos h1]
  · simp only [processEntry, if_neg h1]
    rw [if_neg (by simp [h2])]

theorem processEntry_emits (convert : String → String) (pseudov pkg ver desc : String)
    (d : PackageDetail) (pyv : List String) (raw : String)
    (h1 : ¬(d.files = [] ∧ d.info = []))
    (h2 : truthyVal (select_source_uri d) = true)
    (h3 : py_versions_of (categories_of d.info) = .ok pyv)
    (h4 : license_raw_of (categories_of d.info) = .ok raw) :
    ∃ compat, python_compat (if pyv = [] then default_py_versions else pyv) = .ok compat ∧
      processEntry convert pseudov pkg ver desc d =
        (.ok (some
          { realname := pkg, realversion := ver,
            description := filter_chars allowed_desc_char desc,
            longdescription := filter_chars allowed_desc_char desc,
            homepage := homepage_of d.info,
            license := convert raw,
            source_uri := select_source_uri d,
            md5 := (first_source_file d.files).2,
            python_compat := compat,
            category := "dev-python",
            pkgName := filter_chars allowed_pkg_char pkg,
            pkgVersion := if version_matches ver then ver else pseudov }), [raw]) := by
  have hne : (if pyv = [] then default_py_versions else pyv) ≠ [] := by
    split
    · decide
    · assumption
  obtain ⟨compat, hc⟩ := python_compat_of_ne_nil _ hne
  refine ⟨compat, hc, ?_⟩
  simp only [processEntry, h3, h4, hc]
  rw [if_neg h1, if_pos h2]

theorem processEntry_inv (convert : String → String) (pseudov pkg ver desc : String)
    (d : PackageDetail) (r : EbuildData)
    (h : (processEntry convert pseudov pkg ver desc d).1 = .ok (some r)) :
    ∃ pyv raw,
      ¬(d.files = [] ∧ d.info = []) ∧
      truthyVal (select_source_uri d) = true ∧
      py_versions_of (categories_of d.info) = .ok pyv ∧
      license_raw_of (categories_of d.info) = .ok raw ∧
      python_compat (if pyv = [] then default_py_versions else pyv) = .ok r.python_compat ∧
      processEntry convert pseudov pkg ver desc d = (.ok (some r), [raw]) ∧
      r.realname = pkg ∧ r.realversion = ver ∧
      r.description = filter_chars allowed_desc_char desc ∧
      r.homepage = homepage_of d.info ∧
      r.license = convert raw ∧
      r.source_uri = select_source_uri d ∧
      r.md5 = (first_source_file d.files).2 ∧
      r.pkgName = filter_chars allowed_pkg_char pkg ∧
      r.pkgVersion = (if version_matches ver then ver else pseudov) := by
  by_cases h1 : d.files = [] ∧ d.info = []
  · simp only [processEntry, if_pos h1] at h
    simp at h
  · by_cases h2 : truthyVal (select_source_uri d) = true
    · cases hpy : py_versions_of (categories_of d.info) with
      | error e =>
        simp only [processEntry, hpy] at h
        rw [if_neg h1, if_pos h2] at h
        simp at h
      | ok pyv =>
        cases hlic : license_raw_of (categories_of d.info) with
        | error e =>
          simp only [processEntry, hpy, hlic] at h
          rw [if_neg h1, if_pos h2] at h
          simp at h
        | ok raw =>
          have hne : (if pyv = [] then default_py_versions else pyv) ≠ [] := by
            split
            · decide
            · assumption
          obtain ⟨compat, hc⟩ := python_compat_of_ne_nil _ hne
          simp only [processEntry, hpy, hlic, hc] at h
          rw [if_neg h1, if_pos h2] at h
          simp only [Except.ok.injEq, Option.some.injEq] at h
          refine ⟨pyv, raw, h1, h2, rfl, rfl, ?_, ?_, ?_⟩
          · rw [← h, hc]
          · simp only [processEntry, hpy, hlic, hc]
            rw [if_neg h1, if_pos h2, h]
          · rw [← h]
            exact ⟨rfl, rfl, rfl, rfl, rfl, rfl, rfl, rfl, rfl⟩
    · simp only [processEntry] at h
      rw [if_neg h1, if_neg h2] at h
      simp at h

/-- Claim C3: for an index entry with a non-empty PackageDetail,
process_data prefers a truthy "Download URL:" info value as source_uri;
when the download url is absent or falsy it uses the url of the first
file whose release type is exactly the source marker (an emitted record
always carries the selected source_uri); and when the download url is
falsy and no file is of source type the entry is skipped and no record
is emitted. -/
theorem c3_source_uri_selection (convert : String → String) (pseudov pkg ver desc : String)
    (d : PackageDetail) (_hne : ¬(d.files = [] ∧ d.info = [])) :
    (∀ v, alookup d.info "Download URL:" = some v → truthyVal v = true →
      select_source_uri d = v) ∧
    (truthyVal (download_url_of d.info) = false →
      select_source_uri d = .str (some (first_source_file d.files).1)) ∧
    (∀ pre f post, d.files = pre ++ f :: post →
      (∀ g ∈ pre, g.ftype ≠ some sourceMarker) → f.ftype = some sourceMarker →
      (first_source_file d.files).1 = f.url) ∧
    (∀ r, (processEntry convert pseudov pkg ver desc d).1 = .ok (some r) →
      r.source_uri = select_source_uri d) ∧
    (truthyVal (download_url_of d.info) = false →
      (∀ f ∈ d.files, f.ftype ≠ some sourceMarker) →
      processEntry convert pseudov pkg ver desc d = (.ok none, [])) := by
  refine ⟨?_, ?_, ?_, ?_, ?_⟩
  · intro v hv htr
    have hinfo : d.info ≠ [] := by
      intro he
      rw [he] at hv
      simp [alookup] at hv
    have hdl : download_url_of d.info = v := by
      simp only [download_url_of, if_neg hinfo, hv]
    simp only [select_source_uri, hdl, htr, if_true]
  · intro hdl
    simp only [select_source_uri]
    rw [if_neg (by simp [hdl])]
  · intro pre f post hsplit hpre hf
    rw [hsplit, first_source_file_eq_first pre f post hpre hf]
  · intro r hr
    obtain ⟨pyv, raw, _, _, _, _, _, _, _, _, _, _, _, hsrc, _⟩ :=
      processEntry_inv convert pseudov pkg ver desc d r hr
    exact hsrc
  · intro hdl hnosrc
    apply processEntry_skips_no_uri
    simp only [select_source_uri]
    rw [if_neg (by simp [hdl]), first_source_file_of_none d.files hnosrc]
    decide

/-- Witness for C3 at concrete inputs: dDl has a truthy download url and
it is selected over the source file's url; dC5 has no download url and
the first source file's url is selected. -/
theorem c3_source_uri_selection_witness :
    select_source_uri dDl = .str (some "http://d") ∧
    select_source_uri dC5 = .str (some "http://h/p-1.0.tar.gz") := by
  constructor
  · exact (c3_source_uri_selection id "p" "foo" "1.0" "" dDl (by decide)).1
      (.str (some "http://d")) (by decide) (by decide)
  · have h := (c3_source_uri_selection id "p" "foo" "1.0" "" dC5 (by decide)).2.1 (by decide)
    rw [h]
    decide

/-- Claim C4: the record normalizer emits a version unchanged when it
matches the grammar (^[0-9]+[a-z]?$)|(^[0-9][0-9.]+[0-9][a-z]?$), and
otherwise replaces it with the pseudo-version YYYYMMDD built from the
run date; "1.2.3" passes and "1.0-beta" fails. -/
theorem c4_version_grammar (convert : String → String) (y m dd : Nat)
    (pkg ver desc : String) (d : PackageDetail) (r : EbuildData)
    (h : (processEntry convert (pseudoversion_of y m dd) pkg ver desc d).1 = .ok (some r)) :
    (version_matches ver = true → r.pkgVersion = ver) ∧
    (version_matches ver = false → r.pkgVersion = pseudoversion_of y m dd) ∧
    version_matches "1.2.3" = true ∧
    version_matches "1.0-beta" = false ∧
    pseudoversion_of 2015 7 9 = "20150709" := by
  obtain ⟨pyv, raw, _, _, _, _, _, _, _, _, _, _, _, _, _, _, hver⟩ :=
    processEntry_inv convert (pseudoversion_of y m dd) pkg ver desc d r h
  refine ⟨?_, ?_, by decide, by decide, by decide⟩
  · intro hm
    rw [hver, if_pos hm]
  · intro hm
    rw [hver, if_neg (by simp [hm])]

/-- Witness for C4: the concrete run over d0 with the failing version
"1.0-beta" emits the pseudo-version 20150709. -/
theorem c4_version_grammar_witness :
    (processEntry id (pseudoversion_of 2015 7 9) "foo" "1.0-beta" "" d0).1 =
      .ok (some d0recBeta) ∧
    d0recBeta.pkgVersion = pseudoversion_of 2015 7 9 := by
  have h : (processEntry id (pseudoversion_of 2015 7 9) "foo" "1.0-beta" "" d0).1 =
      .ok (some d0recBeta) := by decide
  exact ⟨h, (c4_version_grammar id 2015 7 9 "foo" "1.0-beta" "" d0 d0recBeta h).2.1 (by decide)⟩

/-- Counterexample to claim C5: Programming Language entries ["2","3.4"]
do map to the tags "2_7" and "3_4" in first-seen order, but the code
renders them as "( python\x7b2_7,3_4\x7d )" — with a space after the
opening parenthesis, the literal "python" prefix and a space before the
closing parenthesis — not as "(python\x7b2_7,3_4\x7d)"; and a single tag
renders as "( python2_7 )", not as the bare tag in parentheses. -/
theorem c5_counterexample :
    py_versions_of (.cats [("Programming Language", ["2", "3.4"])]) = .ok ["2_7", "3_4"] ∧
    python_compat ["2_7", "3_4"] = .ok "( python\x7b2_7,3_4\x7d )" ∧
    python_compat ["2_7", "3_4"] ≠ .ok "(python\x7b2_7,3_4\x7d)" ∧
    python_compat ["2_7"] = .ok "( python2_7 )" ∧
    python_compat ["2_7"] ≠ .ok "(2_7)" := by
  decide

/-- Claim C5 as amended: ["2","3.4"] yields the tag list ["2_7","3_4"] in
first-seen order and the emitted record renders it as
"( python\x7b2_7,3_4\x7d )"; exactly one tag renders as
"( python" ++ tag ++ " )". -/
theorem c5_amended_rendering :
    py_versions_of (.cats [("Programming Language", ["2", "3.4"])]) = .ok ["2_7", "3_4"] ∧
    (∀ v : String, python_compat [v] = .ok ("( python" ++ v ++ " )")) ∧
    (processEntry id "p" "foo" "1.0" "" dC5).1 = .ok (some dC5rec) ∧
    dC5rec.python_compat = "( python\x7b2_7,3_4\x7d )" := by
  exact ⟨by decide, fun v => rfl, by decide, by decide⟩

/-- Counterexample to claim C6: a page with two separate "Categories"
entries, the first carrying "License :: GPL-2" and the second
"License :: MIT", parses to the categories dict \x7b"License": ["MIT"]\x7d —
the second entry resets the dict (line 356) instead of appending — not to
\x7b"License": ["GPL-2", "MIT"]\x7d. -/
theorem c6_counterexample :
    (parse_package_page twoCatPage).info =
      [("Categories", .cats [("License", ["MIT"])])] ∧
    (parse_package_page twoCatPage).info ≠
      [("Categories", .cats [("License", ["GPL-2", "MIT"])])] := by
  decide

/-- Claim C6 as amended: category accumulation is order-preserving append
only within a single "Categories" entry — one entry whose anchors carry
"License :: GPL-2" then "License :: MIT" yields
\x7b"License": ["GPL-2", "MIT"]\x7d, and in general an anchor whose group is
already present appends its values at the end of the group's list — while
a second "Categories" entry on the same page resets the dict. -/
theorem c6_amended_accumulation :
    (parse_package_page oneCatPage).info =
      [("Categories", .cats [("License", ["GPL-2", "MIT"])])] ∧
    (∀ m : StrMap (List String), ∀ grp : String, ∀ cur vals : List String,
      ∀ a : Anchor, alookup m grp = some cur →
      (pySplit (a.text.getD "") " :: ") = grp :: vals → a.text ≠ none →
      addCatAnchor m a = .ok (ainsert m grp (cur ++ vals))) ∧
    (parse_package_page twoCatPage).info =
      [("Categories", .cats [("License", ["MIT"])])] := by
  refine ⟨by decide, ?_, by decide⟩
  intro m grp cur vals a hcur hsplit hsome
  match ha : a.text with
  | none => exact absurd ha hsome
  | some s =>
    rw [ha] at hsplit
    simp only [Option.getD] at hsplit
    simp only [addCatAnchor, ha, pure_bind]
    rw [hsplit]
    simp [pyGet, hcur, bind, Except.bind, pure, Except.pure]

/-- Claim C7: every emitted record's runtime-compatibility expression is
rendered from a non-empty tag list; when the Programming Language
categories yield no tag the list is exactly the default
["2_7", "3_3", "3_4", "3_5"]. -/
theorem c7_compat_default (convert : String → String) (pseudov pkg ver desc : String)
    (d : PackageDetail) (r : EbuildData)
    (h : (processEntry convert pseudov pkg ver desc d).1 = .ok (some r)) :
    ∃ pyv, py_versions_of (categories_of d.info) = .ok pyv ∧
      (if pyv = [] then default_py_versions else pyv) ≠ [] ∧
      python_compat (if pyv = [] then default_py_versions else pyv) = .ok r.python_compat ∧
      (pyv = [] →
        python_compat default_py_versions = .ok r.python_compat ∧
        default_py_versions = ["2_7", "3_3", "3_4", "3_5"]) := by
  obtain ⟨pyv, raw, _, _, hpy, _, hcompat, _⟩ :=
    processEntry_inv convert pseudov pkg ver desc d r h
  refine ⟨pyv, hpy, ?_, hcompat, ?_⟩
  · split
    · decide
    · assumption
  · intro hnil
    subst hnil
    rw [if_pos rfl] at hcompat
    exact ⟨hcompat, rfl⟩

/-- Witness for C7 at d0, whose info is empty so no tag is inferred: the
emitted record carries the rendering of the full default tag set. -/
theorem c7_compat_default_witness :
    (processEntry id "p" "foo" "1.0" "" d0).1 = .ok (some d0rec) ∧
    d0rec.python_compat = "( python\x7b2_7,3_3,3_4,3_5\x7d )" ∧
    (∃ pyv, py_versions_of (categories_of d0.info) = .ok pyv ∧
      (if pyv = [] then default_py_versions else pyv) ≠ [] ∧
      python_compat (if pyv = [] then default_py_versions else pyv) = .ok d0rec.python_compat ∧
      (pyv = [] →
        python_compat default_py_versions = .ok d0rec.python_compat ∧
        default_py_versions = ["2_7", "3_3", "3_4", "3_5"])) := by
  have h : (processEntry id "p" "foo" "1.0" "" d0).1 = .ok (some d0rec) := by decide
  exact ⟨h, by decide, c7_compat_default id "p" "foo" "1.0" "" d0 d0rec h⟩

/-- Claim C8, evaluated at the failing input: a tar payload makes
load_remote_file raise AttributeError — line 97 calls os.path.join on
the TemporaryDirectory object `unpack_dir` instead of `unpack_dir.name`
— so no (basename, data) pair per member is ever returned; the xz parts
of the claim do hold: a failing decompression raises DownloadingError
and a successful one parses the decompressed content under the
extension-stripped basename. -/
theorem c8_load_remote_file_eval :
    load_remote_file (fun s => s) true (fun s => s)
      (.tarArchive [("member.html", "content")]) = .error .attributeError ∧
    (∀ res : List (String × String), load_remote_file (fun s => s) true (fun s => s)
      (.tarArchive [("member.html", "content")]) ≠ .ok res) ∧
    load_remote_file (fun s => s) false (fun s => s) (.plainFile "pkg.xz" "z") =
      .error (.downloadingError "xz failed: pkg.xz") ∧
    load_remote_file (fun s => s) true (fun _ => "DECOMPRESSED") (.plainFile "pkg.xz" "z") =
      .ok [("pkg", "DECOMPRESSED")] := by
  refine ⟨by decide, ?_, by decide, by decide⟩
  intro res h
  simp [load_remote_file] at h

/-- Claim C9: the runtime tag collection is an ordered list, not a set:
the entries "2" and "2.7" both map to "2_7", the list keeps both, and
the tag appears twice in the rendered compatibility expression of the
emitted record. -/
theorem c9_duplicate_tags :
    py_versions_of (.cats [("Programming Language", ["2", "2.7"])]) = .ok ["2_7", "2_7"] ∧
    python_compat ["2_7", "2_7"] = .ok "( python\x7b2_7,2_7\x7d )" ∧
    (processEntry id "p" "foo" "1.0" "" dC9).1 = .ok (some dC9rec) ∧
    dC9rec.python_compat = "( python\x7b2_7,2_7\x7d )" := by
  decide

/-- Counterexample to claim C10: dLic reaches the license step (it is
not skipped — its PackageDetail is non-empty and its source_uri is
truthy) but its License category has an empty value list, so
categories["License"][-1] raises IndexError and the license lookup is
never invoked (the call log stays empty), instead of being invoked
exactly once. -/
theorem c10_counterexample :
    (¬(dLic.files = [] ∧ dLic.info = [])) ∧
    truthyVal (select_source_uri dLic) = true ∧
    processEntry id "p" "foo" "1.0" "" dLic = (.error .indexError, []) := by
  refine ⟨by decide, by decide, by decide⟩

/-- Claim C10 as amended: for every entry that reaches the license step
and whose Programming Language and License extraction does not raise,
the license lookup is invoked exactly once — the call log is exactly
[raw] and the emitted record carries convert raw — and raw is "" when
the entry has no info at all or no License category; when the License
category carries an empty list the step raises IndexError and the lookup
is not invoked (see the counterexample). -/
theorem c10_amended_license_lookup (convert : String → String)
    (pseudov pkg ver desc : String) (d : PackageDetail) (pyv : List String) (raw : String)
    (h1 : ¬(d.files = [] ∧ d.info = []))
    (h2 : truthyVal (select_source_uri d) = true)
    (h3 : py_versions_of (categories_of d.info) = .ok pyv)
    (h4 : license_raw_of (categories_of d.info) = .ok raw) :
    (processEntry convert pseudov pkg ver desc d).2 = [raw] ∧
    (∃ r, (processEntry convert pseudov pkg ver desc d).1 = .ok (some r) ∧
      r.license = convert raw) ∧
    (d.info = [] → raw = "") ∧
    (∀ m, categories_of d.info = .cats m → alookup m "License" = none → raw = "") := by
  obtain ⟨compat, hc, heq⟩ :=
    processEntry_emits convert pseudov pkg ver desc d pyv raw h1 h2 h3 h4
  refine ⟨by rw [heq], ⟨_, by rw [heq], rfl⟩, ?_, ?_⟩
  · intro hinfo
    rw [hinfo] at h4
    simp only [categories_of, alookup, license_raw_of] at h4
    exact (Except.ok.injEq _ _).mp h4 |>.symm
  · intro m hm hnone
    rw [hm] at h4
    simp only [license_raw_of, hnone] at h4
    exact (Except.ok.injEq _ _).mp h4 |>.symm

/-- Witness for C10 as amended, at d0 (no info at all): the lookup is
called exactly once with the empty string. -/
theorem c10_amended_license_lookup_witness :
    (processEntry id "p" "foo" "1.0" "" d0).2 = [""] ∧
    (∃ r, (processEntry id "p" "foo" "1.0" "" d0).1 = .ok (some r) ∧ r.license = id "") := by
  have h := c10_amended_license_lookup id "p" "foo" "1.0" "" d0 [] ""
    (by decide) (by decide) (by decide) (by decide)
  exact ⟨h.1, h.2.1⟩

end GsPypi
